import Mathlib

/-!
Shallow embedding of `src/check_approvers.py` (razDM/gitops-demo): a CI
script that fetches the commits and reviews of a pull request, derives the
set of committer logins and the set of approver logins, and fails when the
two sets intersect.

The GitHub objects that the script reads are modelled by plain structures
carrying exactly the fields the script touches; the remote API is modelled
by an `ApiOutcome` value (the data the calls would return, or the kind of
exception the client library would raise).  Python exceptions are modelled
by the inductive `PyErr`, whose constructors stand for the Python exception
classes observable at this layer (`ValueError` raised by the script itself,
and the client-library classes propagated unchanged by
`PullRequestChecker.__init__`).  Logging is modelled by returning the list
of emitted log lines, and `sys.exit` by the `exitCode` field of the run
result.
-/

/-- A GitHub user as the script sees it: only the `login` field is read.
Python truthiness of the login string (empty = falsy) is modelled with
`String.isEmpty`. -/
structure NamedUser where
  login : String
deriving DecidableEq

/-- A commit as the script sees it: `commit.committer` may be `None`. -/
structure Commit where
  committer : Option NamedUser
deriving DecidableEq

/-- A review as the script sees it: `review.user` may be `None`, and
`review.state` is an arbitrary string compared against `APPROVED_STATE`. -/
structure Review where
  user : Option NamedUser
  state : String
deriving DecidableEq

/-- Constant `APPROVED_STATE = "APPROVED"` from the script. -/
def APPROVED_STATE : String := "APPROVED"

/-- Constant `REQUIRED_ENV_VARS` from the script. -/
def REQUIRED_ENV_VARS : List String :=
  ["GITHUB_REPOSITORY", "PR_NUMBER", "GITHUB_TOKEN"]

/-- Model of Python's `", ".join(...)` over a list of strings. -/
def pyJoin (sep : String) : List String → String
  | [] => ""
  | [x] => x
  | x :: y :: rest => x ++ sep ++ pyJoin sep (y :: rest)

/-- The comprehension body of `get_committers`: the login a commit
contributes, if any.  The guard `commit.committer and
commit.committer.login` requires a non-`None` committer and a truthy
(non-empty) login. -/
def commitLogin (commit : Commit) : Option String :=
  match commit.committer with
  | some u => if u.login.isEmpty then none else some u.login
  | none => none

/-- The comprehension body of `get_approvers`: the login a review
contributes, if any.  The guard `review.state == APPROVED_STATE and
review.user` requires the state to equal `APPROVED_STATE` exactly and the
user to be non-`None`; the login itself is not checked here. -/
def reviewApprover (review : Review) : Option String :=
  if review.state = APPROVED_STATE then
    match review.user with
    | some u => some u.login
    | none => none
  else none

/-- `CommitHandler.get_committers`: the set comprehension
`{commit.committer.login for commit in self.pr.get_commits()
  if commit.committer and commit.committer.login}`. -/
def CommitHandler.get_committers (commits : List Commit) : Finset String :=
  (commits.filterMap commitLogin).toFinset

/-- `PullRequestChecker.get_approvers`: the set comprehension
`{review.user.login for review in self.pr.get_reviews()
  if review.state == APPROVED_STATE and review.user}`. -/
def PullRequestChecker.get_approvers (reviews : List Review) : Finset String :=
  (reviews.filterMap reviewApprover).toFinset

/-- The elements of `committers.intersection(approvers)` in one concrete
iteration order (Python set iteration order is unspecified; the model uses
first-occurrence order of the committer logins). -/
def offendingLogins (commits : List Commit) (reviews : List Review) : List String :=
  (commits.filterMap commitLogin).dedup.filter
    (fun l => l ∈ reviews.filterMap reviewApprover)

/-- Log levels used by the script (`logger.info` / `logger.error`). -/
inductive LogLevel where
  | info
  | error
deriving DecidableEq

/-- One emitted log line. -/
structure LogLine where
  level : LogLevel
  msg : String
deriving DecidableEq

/-- Python exception classes observable at this layer: the `ValueError`
raised by `check_approvers` and `validate_environment`, and the
client-library exception classes (bad credentials, unknown object, network
failure) that `PullRequestChecker.__init__` logs and re-raises unchanged. -/
inductive PyErr where
  | valueError (msg : String)
  | badCredentials (msg : String)
  | unknownObject (msg : String)
  | connectionError (msg : String)
deriving DecidableEq

/-- The exception class of a `PyErr`, forgetting the message: what a
Python `except` clause can discriminate on. -/
inductive ErrClass where
  | valueErrorClass
  | badCredentialsClass
  | unknownObjectClass
  | connectionErrorClass
deriving DecidableEq

/-- Map each modelled exception to its class. -/
def PyErr.classOf : PyErr → ErrClass
  | .valueError _ => .valueErrorClass
  | .badCredentials _ => .badCredentialsClass
  | .unknownObject _ => .unknownObjectClass
  | .connectionError _ => .connectionErrorClass

/-- `str(e)` for a modelled exception. -/
def PyErr.toMsg : PyErr → String
  | .valueError m => m
  | .badCredentials m => m
  | .unknownObject m => m
  | .connectionError m => m

/-- Whether the modelled exception is a `ValueError` (what
`except ValueError` in `main` matches). -/
def PyErr.isValueError : PyErr → Bool
  | .valueError _ => true
  | _ => false

/-- What the remote API would give this run: either the commit and review
lists of the pull request, or the kind of exception the client library
raises (authentication failure, repository/PR not found, network error). -/
inductive ApiOutcome where
  | ok (commits : List Commit) (reviews : List Review)
  | authFailure (msg : String)
  | notFound (msg : String)
  | networkError (msg : String)
deriving DecidableEq

/-- `PullRequestChecker.__init__`: builds the client and resolves the
repository and pull request.  On any exception it logs
`"Failed to initialize GitHub client: ..."` and re-raises the same
exception (`raise` with no argument), so the error class the caller sees is
the one the client library produced. -/
def PullRequestChecker.mkChecker (api : ApiOutcome) :
    List LogLine × Except PyErr (List Commit × List Review) :=
  match api with
  | .ok commits reviews => ([], Except.ok (commits, reviews))
  | .authFailure msg =>
      ([LogLine.mk LogLevel.error ("Failed to initialize GitHub client: " ++ msg)],
        Except.error (PyErr.badCredentials msg))
  | .notFound msg =>
      ([LogLine.mk LogLevel.error ("Failed to initialize GitHub client: " ++ msg)],
        Except.error (PyErr.unknownObject msg))
  | .networkError msg =>
      ([LogLine.mk LogLevel.error ("Failed to initialize GitHub client: " ++ msg)],
        Except.error (PyErr.connectionError msg))

/-- The success log line of `check_approvers`. -/
def successMsg : String :=
  "Approval validation passed: No committers found among approvers"

/-- The violation message built by `check_approvers`:
`f"Security violation: The following users both committed code and approved
the PR: {', '.join(intersection)}"`. -/
def violationMsg (offenders : List String) : String :=
  "Security violation: The following users both committed code and approved the PR: " ++
    pyJoin ", " offenders

/-- `PullRequestChecker.check_approvers`: computes the two sets, intersects
them, and raises `ValueError` with the offending logins when the
intersection is non-empty; otherwise logs the success line and returns. -/
def check_approvers (commits : List Commit) (reviews : List Review) :
    List LogLine × Except PyErr Unit :=
  let committers := CommitHandler.get_committers commits
  let approvers := PullRequestChecker.get_approvers reviews
  let intersection := committers ∩ approvers
  if intersection = ∅ then
    ([LogLine.mk LogLevel.info successMsg], Except.ok ())
  else
    let error_msg := violationMsg (offendingLogins commits reviews)
    ([LogLine.mk LogLevel.error error_msg], Except.error (PyErr.valueError error_msg))

/-- Leading-whitespace stripper over character lists. -/
def dropSpaces : List Char → List Char
  | [] => []
  | c :: cs => if c.isWhitespace then dropSpaces cs else c :: cs

/-- Every character is a decimal digit. -/
def allDigits : List Char → Bool
  | [] => true
  | c :: cs => c.isDigit && allDigits cs

/-- Accumulate decimal digits into a natural number. -/
def digitsToNat : Nat → List Char → Nat
  | acc, [] => acc
  | acc, c :: cs => digitsToNat (acc * 10 + (c.toNat - 48)) cs

/-- Model of the Python built-in `int(s)` on strings: optional surrounding
whitespace, optional sign, then at least one decimal digit.  (Digit-group
underscores accepted by CPython are not modelled; no claim depends on
them.) -/
def parsePyInt (s : String) : Option Int :=
  match dropSpaces ((dropSpaces s.data.reverse).reverse) with
  | '-' :: core =>
      if !core.isEmpty && allDigits core then some (-(digitsToNat 0 core : Int)) else none
  | '+' :: core =>
      if !core.isEmpty && allDigits core then some ((digitsToNat 0 core : Int)) else none
  | core =>
      if !core.isEmpty && allDigits core then some ((digitsToNat 0 core : Int)) else none

/-- The process environment: `os.getenv`. -/
structure Env where
  getenv : String → Option String

/-- Python truthiness of an `os.getenv` result: set and non-empty. -/
def truthy : Option String → Bool
  | none => false
  | some s => !s.isEmpty

/-- `validate_environment`: collects the required variables that are unset
or empty and raises `ValueError` listing them; otherwise parses `PR_NUMBER`
as an integer, raising `ValueError` with a parse message on failure. -/
def validate_environment (env : Env) : Except String (String × Int × String) :=
  let missing_vars := REQUIRED_ENV_VARS.filter (fun v => !truthy (env.getenv v))
  if missing_vars.isEmpty then
    let repo_name := (env.getenv "GITHUB_REPOSITORY").getD ""
    let pr_number := (env.getenv "PR_NUMBER").getD ""
    let token := (env.getenv "GITHUB_TOKEN").getD ""
    match parsePyInt pr_number with
    | some n => Except.ok (repo_name, n, token)
    | none => Except.error ("Invalid PR_NUMBER: " ++ pr_number ++ ". Must be an integer.")
  else
    Except.error ("Missing required environment variables: " ++ pyJoin ", " missing_vars)

/-- Result of one run of the script: the process exit code, the log lines
emitted, and how many remote API operations were performed before exiting
(`get_repo`/`get_pull` during checker construction, `get_commits` and
`get_reviews` during the check). -/
structure RunResult where
  exitCode : Nat
  log : List LogLine
  remoteCalls : Nat
deriving DecidableEq

/-- `main`: validates the environment, constructs the checker, runs the
check; `except ValueError` logs `str(ve)` and exits 1, any other exception
logs `"Unexpected error: ..."` and exits 1; falling off the end exits 0. -/
def Script.main (env : Env) (api : ApiOutcome) : RunResult :=
  match validate_environment env with
  | Except.error msg =>
      RunResult.mk 1 [LogLine.mk LogLevel.error msg] 0
  | Except.ok _cfg =>
      match PullRequestChecker.mkChecker api with
      | (initLog, Except.error e) =>
          RunResult.mk 1
            (initLog ++ [LogLine.mk LogLevel.error
              (if e.isValueError then e.toMsg else "Unexpected error: " ++ e.toMsg)])
            2
      | (initLog, Except.ok (commits, reviews)) =>
          match check_approvers commits reviews with
          | (chkLog, Except.error e) =>
              RunResult.mk 1
                (initLog ++ chkLog ++ [LogLine.mk LogLevel.error
                  (if e.isValueError then e.toMsg else "Unexpected error: " ++ e.toMsg)])
                4
          | (chkLog, Except.ok _) =>
              RunResult.mk 0 (initLog ++ chkLog) 4

/-- `msg` mentions `sub`: `sub` occurs contiguously inside `msg`. -/
def mentions (msg sub : String) : Prop :=
  ∃ pre post : List Char, msg.data = pre ++ sub.data ++ post

deriving instance DecidableEq for Except

/-- A concrete valid environment used in scenario theorems. -/
def envOk : Env :=
  Env.mk (fun v =>
    if v = "GITHUB_REPOSITORY" then some "octo/demo"
    else if v = "PR_NUMBER" then some "7"
    else if v = "GITHUB_TOKEN" then some "token123"
    else none)

/-- A concrete environment whose `PR_NUMBER` is not an integer. -/
def envAbc : Env :=
  Env.mk (fun v =>
    if v = "GITHUB_REPOSITORY" then some "octo/demo"
    else if v = "PR_NUMBER" then some "abc"
    else if v = "GITHUB_TOKEN" then some "token123"
    else none)

/-- The violation message produced when `alice` alone offends. -/
def violAliceMsg : String :=
  "Security violation: The following users both committed code and approved the PR: alice"

/-- The violation message produced when `eve` alone offends. -/
def violEveMsg : String :=
  "Security violation: The following users both committed code and approved the PR: eve"

/-- Membership in the committer set: a login is collected exactly when some
commit carries a committer with that non-empty login. -/
theorem mem_get_committers (commits : List Commit) (l : String) :
    l ∈ CommitHandler.get_committers commits ↔
      ∃ c ∈ commits, ∃ u, c.committer = some u ∧ u.login = l ∧ l.isEmpty = false := by
  simp only [CommitHandler.get_committers, List.mem_toFinset, List.mem_filterMap]
  constructor
  · rintro ⟨c, hc, hf⟩
    unfold commitLogin at hf
    cases hcc : c.committer with
    | none => rw [hcc] at hf; cases hf
    | some u =>
      rw [hcc] at hf
      by_cases he : u.login.isEmpty = true
      · simp [he] at hf
      · simp [he] at hf
        have hne : u.login.isEmpty = false := by
          cases hb : u.login.isEmpty
          · rfl
          · exact absurd hb he
        exact ⟨c, hc, u, hcc, hf, hf ▸ hne⟩
  · rintro ⟨c, hc, u, hcc, hl, hne⟩
    refine ⟨c, hc, ?_⟩
    unfold commitLogin
    rw [hcc]
    simp [hl, hne]

/-- Membership in the approver set: a login is collected exactly when some
review has state `APPROVED_STATE` and a user with that login. -/
theorem mem_get_approvers (reviews : List Review) (l : String) :
    l ∈ PullRequestChecker.get_approvers reviews ↔
      ∃ r ∈ reviews, r.state = APPROVED_STATE ∧ r.user = some (NamedUser.mk l) := by
  simp only [PullRequestChecker.get_approvers, List.mem_toFinset, List.mem_filterMap]
  constructor
  · rintro ⟨r, hr, hf⟩
    unfold reviewApprover at hf
    by_cases hs : r.state = APPROVED_STATE
    · rw [if_pos hs] at hf
      cases hu : r.user with
      | none => rw [hu] at hf; cases hf
      | some u =>
        rw [hu] at hf
        simp at hf
        exact ⟨r, hr, hs, by rw [hu, ← hf]⟩
    · rw [if_neg hs] at hf; cases hf
  · rintro ⟨r, hr, hs, hu⟩
    refine ⟨r, hr, ?_⟩
    unfold reviewApprover
    rw [if_pos hs, hu]

/-- C2: `get_approvers` includes a login exactly when some review has state
equal to the exact case-sensitive string `"APPROVED"` and a user with that
login; a review with any other state (`COMMENTED`, `CHANGES_REQUESTED`,
lowercase `approved`, ...) contributes nothing to the approver set. -/
theorem approvers_exact_approved_state (reviews : List Review) (login : String) :
    (login ∈ PullRequestChecker.get_approvers reviews ↔
      ∃ r ∈ reviews, r.state = "APPROVED" ∧ r.user = some (NamedUser.mk login)) ∧
    (∀ r : Review, r.state ≠ "APPROVED" →
      PullRequestChecker.get_approvers (r :: reviews) =
        PullRequestChecker.get_approvers reviews) := by
  constructor
  · exact mem_get_approvers reviews login
  · intro r hr
    have hnone : reviewApprover r = none := by
      unfold reviewApprover
      rw [if_neg (by simp only [APPROVED_STATE]; exact hr)]
    simp [PullRequestChecker.get_approvers, List.filterMap_cons, hnone]

/-- Witness for C2: a lowercase `approved` review contributes nothing. -/
theorem approvers_exact_approved_state_witness :
    (Review.mk (some (NamedUser.mk "alice")) "approved").state ≠ "APPROVED" ∧
    PullRequestChecker.get_approvers
        [Review.mk (some (NamedUser.mk "alice")) "approved",
         Review.mk (some (NamedUser.mk "bob")) "APPROVED"] =
      PullRequestChecker.get_approvers [Review.mk (some (NamedUser.mk "bob")) "APPROVED"] :=
  ⟨by decide, (approvers_exact_approved_state
      [Review.mk (some (NamedUser.mk "bob")) "APPROVED"] "alice").2 _ (by decide)⟩

/-- C3: a commit whose committer is `None` contributes nothing to the
committer set (and the total function `get_committers` never fails on it:
the guard short-circuits before the `login` access). -/
theorem committers_skip_null_committer (commits : List Commit) (c : Commit)
    (h : c.committer = none) :
    CommitHandler.get_committers (c :: commits) = CommitHandler.get_committers commits := by
  have hnone : commitLogin c = none := by
    unfold commitLogin
    rw [h]
  simp [CommitHandler.get_committers, List.filterMap_cons, hnone]

/-- Witness for C3: a committer-less commit in front of a normal one. -/
theorem committers_skip_null_committer_witness :
    (Commit.mk none).committer = none ∧
    CommitHandler.get_committers [Commit.mk none, Commit.mk (some (NamedUser.mk "bob"))] =
      CommitHandler.get_committers [Commit.mk (some (NamedUser.mk "bob"))] :=
  ⟨rfl, committers_skip_null_committer _ _ rfl⟩

/-- C4: `get_committers` has set semantics: deduplicating the commit list
does not change the result, and a duplicated commit contributes once. -/
theorem committers_set_semantics (commits : List Commit) :
    CommitHandler.get_committers commits.dedup = CommitHandler.get_committers commits ∧
    ∀ c : Commit, CommitHandler.get_committers (c :: c :: commits) =
      CommitHandler.get_committers (c :: commits) := by
  constructor
  · ext l
    rw [mem_get_committers, mem_get_committers]
    simp only [List.mem_dedup]
  · intro c
    ext l
    rw [mem_get_committers, mem_get_committers]
    simp only [List.mem_cons]
    constructor
    · rintro ⟨d, hd, rest⟩
      exact ⟨d, by tauto, rest⟩
    · rintro ⟨d, hd, rest⟩
      exact ⟨d, by tauto, rest⟩

/-- C9: a review with state `APPROVED` but a `None` user is silently
excluded from the approver set; the guard evaluates `review.user` before
any `login` access, so the review cannot crash the run nor create a
violation. -/
theorem approvers_skip_null_user (reviews : List Review) (r : Review)
    (hs : r.state = "APPROVED") (hu : r.user = none) :
    PullRequestChecker.get_approvers (r :: reviews) =
      PullRequestChecker.get_approvers reviews := by
  have hnone : reviewApprover r = none := by
    unfold reviewApprover
    rw [hu]
    simp
  simp [PullRequestChecker.get_approvers, List.filterMap_cons, hnone]

/-- Witness for C9: an `APPROVED` review by a deleted (null) user. -/
theorem approvers_skip_null_user_witness :
    (Review.mk none "APPROVED").state = "APPROVED" ∧
    (Review.mk none "APPROVED").user = none ∧
    PullRequestChecker.get_approvers
        [Review.mk none "APPROVED", Review.mk (some (NamedUser.mk "bob")) "APPROVED"] =
      PullRequestChecker.get_approvers [Review.mk (some (NamedUser.mk "bob")) "APPROVED"] :=
  ⟨rfl, rfl, approvers_skip_null_user _ _ rfl rfl⟩

/-- Helper: the empty login never enters the committer set. -/
theorem empty_login_not_committer (commits : List Commit) :
    "" ∉ CommitHandler.get_committers commits := by
  rw [mem_get_committers]
  rintro ⟨c, hc, u, hcc, hl, hne⟩
  exact absurd hne (by decide)

/-- C10: a commit whose committer is present but has an empty login is
excluded from the committer set (the guard demands a truthy login, not just
a non-null committer), so the empty login never appears in the
intersection. -/
theorem committers_require_truthy_login (commits : List Commit) (c : Commit) (u : NamedUser)
    (hc : c.committer = some u) (hl : u.login = "") :
    CommitHandler.get_committers (c :: commits) = CommitHandler.get_committers commits ∧
    ∀ (commitList : List Commit) (reviews : List Review),
      "" ∉ CommitHandler.get_committers commitList ∩
        PullRequestChecker.get_approvers reviews := by
  constructor
  · have h0 : ("" : String).isEmpty = true := rfl
    have hnone : commitLogin c = none := by
      simp [commitLogin, hc, hl, h0]
    simp [CommitHandler.get_committers, List.filterMap_cons, hnone]
  · intro cl rv hmem
    exact empty_login_not_committer cl (Finset.mem_inter.mp hmem).1

/-- Witness for C10: an empty-login committer identity is dropped. -/
theorem committers_require_truthy_login_witness :
    (Commit.mk (some (NamedUser.mk ""))).committer = some (NamedUser.mk "") ∧
    (NamedUser.mk "").login = "" ∧
    CommitHandler.get_committers
        [Commit.mk (some (NamedUser.mk "")), Commit.mk (some (NamedUser.mk "bob"))] =
      CommitHandler.get_committers [Commit.mk (some (NamedUser.mk "bob"))] :=
  ⟨rfl, rfl, (committers_require_truthy_login _ _ _ rfl rfl).1⟩

/-- C1: `check_approvers` fails (raises) exactly when the committer set and
the approver set intersect; on an empty intersection it emits the
informational success line and returns normally. -/
theorem check_fails_iff_intersection (commits : List Commit) (reviews : List Review) :
    (¬(check_approvers commits reviews).2 = Except.ok () ↔
      (CommitHandler.get_committers commits ∩
        PullRequestChecker.get_approvers reviews).Nonempty) ∧
    (CommitHandler.get_committers commits ∩ PullRequestChecker.get_approvers reviews = ∅ →
      check_approvers commits reviews =
        ([LogLine.mk LogLevel.info successMsg], Except.ok ())) := by
  by_cases h : CommitHandler.get_committers commits ∩
      PullRequestChecker.get_approvers reviews = ∅
  · constructor
    · simp [check_approvers, h]
    · intro _
      simp [check_approvers, h]
  · constructor
    · simp only [check_approvers, if_neg h]
      simp [Finset.nonempty_iff_ne_empty, h]
    · intro he
      exact absurd he h

/-- Witness for C1: disjoint committers and approvers pass with the
success log line. -/
theorem check_fails_iff_intersection_witness :
    CommitHandler.get_committers [Commit.mk (some (NamedUser.mk "alice"))] ∩
        PullRequestChecker.get_approvers
          [Review.mk (some (NamedUser.mk "carol")) "APPROVED"] = ∅ ∧
    check_approvers [Commit.mk (some (NamedUser.mk "alice"))]
        [Review.mk (some (NamedUser.mk "carol")) "APPROVED"] =
      ([LogLine.mk LogLevel.info successMsg], Except.ok ()) :=
  ⟨by decide, (check_fails_iff_intersection _ _).2 (by decide)⟩

/-- Helper: appending a string preserves string data concatenation. -/
theorem string_data_append (a b : String) : (a ++ b).data = a.data ++ b.data := by
  cases a
  cases b
  rfl

/-- Helper: a mentioned substring stays mentioned after prepending. -/
theorem mentions_append_left (t msg sub : String) (h : mentions msg sub) :
    mentions (t ++ msg) sub := by
  obtain ⟨pre, post, hp⟩ := h
  refine ⟨t.data ++ pre, post, ?_⟩
  rw [string_data_append, hp]
  simp

/-- Helper: every element of a list is mentioned in its Python join. -/
theorem pyJoin_mentions (sep : String) :
    ∀ (xs : List String) (l : String), l ∈ xs → mentions (pyJoin sep xs) l
  | [], l, h => absurd h (List.not_mem_nil l)
  | [x], l, h => by
      have hx : l = x := by simpa using h
      subst hx
      exact ⟨[], [], by simp [pyJoin]⟩
  | x :: y :: rest, l, h => by
      rcases List.mem_cons.mp h with hx | hmem
      · subst hx
        refine ⟨[], sep.data ++ (pyJoin sep (y :: rest)).data, ?_⟩
        show (l ++ sep ++ pyJoin sep (y :: rest)).data = _
        rw [string_data_append, string_data_append]
        simp
      · obtain ⟨pre, post, hp⟩ := pyJoin_mentions sep (y :: rest) l hmem
        refine ⟨(x ++ sep).data ++ pre, post, ?_⟩
        show (x ++ sep ++ pyJoin sep (y :: rest)).data = _
        rw [string_data_append, hp]
        simp

/-- Helper: `offendingLogins` enumerates exactly the intersection of the
committer and approver sets. -/
theorem mem_offendingLogins (commits : List Commit) (reviews : List Review) (l : String) :
    l ∈ offendingLogins commits reviews ↔
      l ∈ CommitHandler.get_committers commits ∩
        PullRequestChecker.get_approvers reviews := by
  simp only [offendingLogins, List.mem_filter, List.mem_dedup, Finset.mem_inter,
    CommitHandler.get_committers, PullRequestChecker.get_approvers, List.mem_toFinset,
    decide_eq_true_eq]

/-- C5: whenever the committer and approver sets intersect, the raised
error's message mentions every offending login; concretely, with commits by
`alice` and `bob` and one `APPROVED` review by `alice`, the run exits 1 and
a log line mentions `alice`. -/
theorem violation_lists_offenders :
    (∀ (commits : List Commit) (reviews : List Review) (l : String) (e : PyErr),
      l ∈ CommitHandler.get_committers commits ∩ PullRequestChecker.get_approvers reviews →
      (check_approvers commits reviews).2 = Except.error e →
      mentions e.toMsg l) ∧
    ((Script.main envOk (ApiOutcome.ok
        [Commit.mk (some (NamedUser.mk "alice")), Commit.mk (some (NamedUser.mk "bob"))]
        [Review.mk (some (NamedUser.mk "alice")) "APPROVED"])).exitCode = 1 ∧
      ∃ line ∈ (Script.main envOk (ApiOutcome.ok
        [Commit.mk (some (NamedUser.mk "alice")), Commit.mk (some (NamedUser.mk "bob"))]
        [Review.mk (some (NamedUser.mk "alice")) "APPROVED"])).log,
        mentions line.msg "alice") := by
  constructor
  · intro commits reviews l e hmem herr
    have hne : CommitHandler.get_committers commits ∩
        PullRequestChecker.get_approvers reviews ≠ ∅ :=
      Finset.ne_empty_of_mem hmem
    simp only [check_approvers, if_neg hne] at herr
    have he : e = PyErr.valueError (violationMsg (offendingLogins commits reviews)) := by
      simpa using herr.symm
    rw [he]
    show mentions (violationMsg (offendingLogins commits reviews)) l
    unfold violationMsg
    exact mentions_append_left _ _ _
      (pyJoin_mentions _ _ _ ((mem_offendingLogins commits reviews l).mpr hmem))
  · constructor
    · decide
    · refine ⟨LogLine.mk LogLevel.error violAliceMsg, by decide, ?_⟩
      refine ⟨("Security violation: The following users both committed code and approved the PR: ").data, [], ?_⟩
      decide

/-- Witness for C5's general part at a concrete violation. -/
theorem violation_lists_offenders_witness :
    "alice" ∈ CommitHandler.get_committers [Commit.mk (some (NamedUser.mk "alice"))] ∩
        PullRequestChecker.get_approvers
          [Review.mk (some (NamedUser.mk "alice")) "APPROVED"] ∧
    (check_approvers [Commit.mk (some (NamedUser.mk "alice"))]
        [Review.mk (some (NamedUser.mk "alice")) "APPROVED"]).2 =
      Except.error (PyErr.valueError violAliceMsg) ∧
    mentions (PyErr.valueError violAliceMsg).toMsg "alice" :=
  ⟨by decide, by decide,
    violation_lists_offenders.1 [Commit.mk (some (NamedUser.mk "alice"))]
      [Review.mk (some (NamedUser.mk "alice")) "APPROVED"] "alice"
      (PyErr.valueError violAliceMsg) (by decide) (by decide)⟩

/-- Helper: when environment validation fails, `main` logs the message and
exits 1 with no remote call performed. -/
theorem main_of_validate_error (env : Env) (api : ApiOutcome) (msg : String)
    (hv : validate_environment env = Except.error msg) :
    Script.main env api = RunResult.mk 1 [LogLine.mk LogLevel.error msg] 0 := by
  simp [Script.main, hv]

/-- Helper: an unset or unparsable `PR_NUMBER` makes validation raise. -/
theorem validate_pr_error (env : Env)
    (h : env.getenv "PR_NUMBER" = none ∨
      ∃ s, env.getenv "PR_NUMBER" = some s ∧ parsePyInt s = none) :
    ∃ msg, validate_environment env = Except.error msg := by
  simp only [validate_environment]
  by_cases hm : (REQUIRED_ENV_VARS.filter (fun v => !truthy (env.getenv v))).isEmpty = true
  · rw [if_pos hm]
    rw [List.isEmpty_iff, List.filter_eq_nil_iff] at hm
    have hprt := hm "PR_NUMBER" (by simp [REQUIRED_ENV_VARS])
    rcases h with hnone | ⟨s, hsome, hparse⟩
    · rw [hnone] at hprt
      simp [truthy] at hprt
    · rw [hsome]
      simp only [Option.getD_some]
      rw [hparse]
      exact ⟨_, rfl⟩
  · rw [if_neg hm]
    exact ⟨_, rfl⟩

/-- C6: with `PR_NUMBER` unset or not parsing as an integer, the run exits 1
with zero remote calls made; when the other variables are present and the
value is a non-empty non-integer string, the single log line is the parse
error message. -/
theorem pr_number_invalid_fails_early (env : Env) (api : ApiOutcome)
    (h : env.getenv "PR_NUMBER" = none ∨
      ∃ s, env.getenv "PR_NUMBER" = some s ∧ parsePyInt s = none) :
    ((Script.main env api).exitCode = 1 ∧ (Script.main env api).remoteCalls = 0) ∧
    (∀ s, env.getenv "PR_NUMBER" = some s → s.isEmpty = false →
      truthy (env.getenv "GITHUB_REPOSITORY") = true →
      truthy (env.getenv "GITHUB_TOKEN") = true →
      (Script.main env api).log =
        [LogLine.mk LogLevel.error ("Invalid PR_NUMBER: " ++ s ++ ". Must be an integer.")]) := by
  constructor
  · obtain ⟨msg, hv⟩ := validate_pr_error env h
    rw [main_of_validate_error env api msg hv]
    exact ⟨rfl, rfl⟩
  · intro s hs hse hrepo htok
    have hparse : parsePyInt s = none := by
      rcases h with hnone | ⟨t, ht, hp⟩
      · rw [hnone] at hs
        cases hs
      · rw [ht] at hs
        obtain rfl : t = s := Option.some.inj hs
        exact hp
    have hprt : truthy (env.getenv "PR_NUMBER") = true := by
      rw [hs]
      simp [truthy, hse]
    have hfil : REQUIRED_ENV_VARS.filter (fun v => !truthy (env.getenv v)) = [] := by
      simp [REQUIRED_ENV_VARS, List.filter_cons, hrepo, htok, hprt]
    have hv : validate_environment env =
        Except.error ("Invalid PR_NUMBER: " ++ s ++ ". Must be an integer.") := by
      simp only [validate_environment]
      rw [hfil]
      simp [hs, hparse]
    rw [main_of_validate_error env api _ hv]

/-- Witness for C6: `PR_NUMBER="abc"` with the other variables set. -/
theorem pr_number_invalid_fails_early_witness :
    (envAbc.getenv "PR_NUMBER" = some "abc" ∧ parsePyInt "abc" = none) ∧
    (Script.main envAbc (ApiOutcome.ok [] [])).exitCode = 1 ∧
    (Script.main envAbc (ApiOutcome.ok [] [])).remoteCalls = 0 ∧
    (Script.main envAbc (ApiOutcome.ok [] [])).log =
      [LogLine.mk LogLevel.error
        ("Invalid PR_NUMBER: " ++ "abc" ++ ". Must be an integer.")] := by
  have h := pr_number_invalid_fails_early envAbc (ApiOutcome.ok [] [])
    (Or.inr ⟨"abc", by decide, by decide⟩)
  exact ⟨⟨by decide, by decide⟩, h.1.1, h.1.2,
    h.2 "abc" (by decide) (by decide) (by decide) (by decide)⟩

/-- C7: the exit code is 0 exactly when validation succeeds, the checker
constructs, and the intersection is empty; every other path exits 1, and
each failing run has an error log line, so nothing is silently swallowed. -/
theorem exit_codes_characterized (env : Env) (api : ApiOutcome) :
    ((Script.main env api).exitCode = 0 ↔
      ((∃ cfg, validate_environment env = Except.ok cfg) ∧
        ∃ commits reviews, api = ApiOutcome.ok commits reviews ∧
          CommitHandler.get_committers commits ∩
            PullRequestChecker.get_approvers reviews = ∅)) ∧
    ((Script.main env api).exitCode = 0 ∨ (Script.main env api).exitCode = 1) ∧
    ((Script.main env api).exitCode ≠ 0 →
      ∃ line ∈ (Script.main env api).log, line.level = LogLevel.error) := by
  cases hv : validate_environment env with
  | error msg =>
      rw [main_of_validate_error env api msg hv]
      refine ⟨?_, Or.inr rfl, ?_⟩
      · simp [hv]
      · intro _
        exact ⟨LogLine.mk LogLevel.error msg, by simp, rfl⟩
  | ok cfg =>
      cases api with
      | ok commits reviews =>
          by_cases hi : CommitHandler.get_committers commits ∩
              PullRequestChecker.get_approvers reviews = ∅
          · refine ⟨⟨fun _ => ⟨⟨cfg, rfl⟩, commits, reviews, rfl, hi⟩, fun _ => ?_⟩,
              Or.inl ?_, fun hne => absurd ?_ hne⟩
            all_goals
              simp [Script.main, hv, PullRequestChecker.mkChecker, check_approvers, hi]
          · refine ⟨⟨fun h0 => ?_, ?_⟩, Or.inr ?_, fun _ => ?_⟩
            · simp [Script.main, hv, PullRequestChecker.mkChecker,
                check_approvers, hi] at h0
            · rintro ⟨-, c2, r2, heq, hempty⟩
              injection heq with h1 h2
              subst h1
              subst h2
              exact absurd hempty hi
            · simp [Script.main, hv, PullRequestChecker.mkChecker, check_approvers, hi]
            · refine ⟨LogLine.mk LogLevel.error
                (violationMsg (offendingLogins commits reviews)), ?_, rfl⟩
              simp [Script.main, hv, PullRequestChecker.mkChecker, check_approvers, hi,
                PyErr.isValueError, PyErr.toMsg]
      | authFailure m =>
          refine ⟨⟨fun h0 => ?_, ?_⟩, Or.inr ?_, fun _ => ?_⟩
          · simp [Script.main, hv, PullRequestChecker.mkChecker] at h0
          · rintro ⟨-, c2, r2, heq, -⟩
            cases heq
          · simp [Script.main, hv, PullRequestChecker.mkChecker]
          · refine ⟨LogLine.mk LogLevel.error ("Failed to initialize GitHub client: " ++ m),
              ?_, rfl⟩
            simp [Script.main, hv, PullRequestChecker.mkChecker]
      | notFound m =>
          refine ⟨⟨fun h0 => ?_, ?_⟩, Or.inr ?_, fun _ => ?_⟩
          · simp [Script.main, hv, PullRequestChecker.mkChecker] at h0
          · rintro ⟨-, c2, r2, heq, -⟩
            cases heq
          · simp [Script.main, hv, PullRequestChecker.mkChecker]
          · refine ⟨LogLine.mk LogLevel.error ("Failed to initialize GitHub client: " ++ m),
              ?_, rfl⟩
            simp [Script.main, hv, PullRequestChecker.mkChecker]
      | networkError m =>
          refine ⟨⟨fun h0 => ?_, ?_⟩, Or.inr ?_, fun _ => ?_⟩
          · simp [Script.main, hv, PullRequestChecker.mkChecker] at h0
          · rintro ⟨-, c2, r2, heq, -⟩
            cases heq
          · simp [Script.main, hv, PullRequestChecker.mkChecker]
          · refine ⟨LogLine.mk LogLevel.error ("Failed to initialize GitHub client: " ++ m),
              ?_, rfl⟩
            simp [Script.main, hv, PullRequestChecker.mkChecker]

/-- Witness for C7: a fully valid run exits 0. -/
theorem exit_codes_characterized_witness :
    (Script.main envOk (ApiOutcome.ok [] [])).exitCode = 0 :=
  (exit_codes_characterized envOk (ApiOutcome.ok [] [])).1.mpr
    ⟨⟨("octo/demo", 7, "token123"), by decide⟩, [], [], rfl, by decide⟩

/-- C8: an authentication or not-found failure during checker construction
surfaces as the client-library exception class propagated by the re-raise,
which differs both from the `ValueError` class carrying a policy violation
and from the network-failure class, so a caller can tell the three kinds of
failure apart. -/
theorem error_classes_distinguishable (m : String) (commits : List Commit)
    (reviews : List Review) :
    ((PullRequestChecker.mkChecker (ApiOutcome.authFailure m)).2 =
        Except.error (PyErr.badCredentials m) ∧
      (PyErr.badCredentials m).classOf = ErrClass.badCredentialsClass) ∧
    ((PullRequestChecker.mkChecker (ApiOutcome.notFound m)).2 =
        Except.error (PyErr.unknownObject m) ∧
      (PyErr.unknownObject m).classOf = ErrClass.unknownObjectClass) ∧
    ((PullRequestChecker.mkChecker (ApiOutcome.networkError m)).2 =
        Except.error (PyErr.connectionError m) ∧
      (PyErr.connectionError m).classOf = ErrClass.connectionErrorClass) ∧
    (∀ e : PyErr, (check_approvers commits reviews).2 = Except.error e →
      e.classOf = ErrClass.valueErrorClass) ∧
    (ErrClass.badCredentialsClass ≠ ErrClass.valueErrorClass ∧
      ErrClass.unknownObjectClass ≠ ErrClass.valueErrorClass ∧
      ErrClass.badCredentialsClass ≠ ErrClass.connectionErrorClass ∧
      ErrClass.unknownObjectClass ≠ ErrClass.connectionErrorClass ∧
      ErrClass.valueErrorClass ≠ ErrClass.connectionErrorClass) := by
  refine ⟨⟨rfl, rfl⟩, ⟨rfl, rfl⟩, ⟨rfl, rfl⟩, ?_, by decide⟩
  intro e he
  simp only [check_approvers] at he
  split at he
  · exact absurd he (by simp)
  · simp only [Except.error.injEq] at he
    rw [← he]
    rfl

/-- Witness for C8: the concrete policy-violation error is a `ValueError`. -/
theorem error_classes_distinguishable_witness :
    (check_approvers [Commit.mk (some (NamedUser.mk "eve"))]
        [Review.mk (some (NamedUser.mk "eve")) "APPROVED"]).2 =
      Except.error (PyErr.valueError violEveMsg) ∧
    (PyErr.valueError violEveMsg).classOf = ErrClass.valueErrorClass :=
  ⟨by decide,
    (error_classes_distinguishable "bad credentials"
        [Commit.mk (some (NamedUser.mk "eve"))]
        [Review.mk (some (NamedUser.mk "eve")) "APPROVED"]).2.2.2.1
      (PyErr.valueError violEveMsg) (by decide)⟩
